import Mathlib

/-!
Verification of the LearnerApi movie-proxy service (src/myapi.py).

The service is a thin proxy over the TMDB movie-metadata API.  We embed the
three request-handling functions shallowly:

* `get_genre_id_mapping` builds the lowercased genre-name → numeric-ID table
  from the upstream genre-list payload (`myapi.py` lines 26-34);
* `fetch_movies_from_tmdb` lazily populates the process-wide cache slot
  `GENRE_ID_CACHE`, assembles the discovery query, issues the discover call,
  truncates to 5 results and projects them (lines 37-81);
* `read_movies` is the route handler translating Python exceptions into HTTP
  responses (lines 84-94), and `create_movie` is the echo endpoint (97-99).

Modelling conventions:

* Python dicts are association lists (`List (String × _)`) in insertion
  order; `dictGet` returns the value of the last binding for a key, matching
  dict-comprehension overwrite semantics.  JSON scalar field values are the
  inductive `Val` (strings, ints, `none`, and floats rendered as rationals —
  the service only passes float values through verbatim, never computes with
  them, so any value type with decidable equality is faithful).
* The upstream provider is a parameter `Upstream`: the genre-list endpoint's
  outcome and the discover endpoint's outcome as a function of the query sent
  to it.  `Except.error st` stands for an HTTP response with non-2xx status
  `st`, on which `resp.raise_for_status()` raises `httpx.HTTPStatusError`;
  `Except.ok p` is a 2xx response whose JSON body is `p`.  A payload of
  `none` models a JSON object lacking the key the code reads with `.get`
  (`'genres'` resp. `'results'`), for which the code substitutes `[]`.
* Python exceptions reaching this layer are `PyErr`; the mutable global
  `GENRE_ID_CACHE` is threaded as explicit `Option GenreTable` state, `none`
  standing for the Python value `None`.
* Python truthiness in `if genre:` / `if year:` / `if not genre_id:` is
  modelled exactly: an empty string, the int `0`, and `None` are falsy.
-/

/-- Scalar JSON values as the service manipulates them.  `vFloat` uses `Rat`
as a stand-in for floats; the service only moves such values verbatim. -/
inductive Val where
  | vNone : Val
  | vStr : String → Val
  | vInt : Int → Val
  | vFloat : Rat → Val
deriving DecidableEq

/-- A JSON object: association list of fields in insertion order. -/
abbrev JObj := List (String × Val)

/-- The genre table: lowercased genre name → TMDB numeric genre ID. -/
abbrev GenreTable := List (String × Int)

/-- Python `d.get(k)` / `d[k]`-style lookup on an association list: the value
of the LAST binding of `k` (a dict comprehension with duplicate keys keeps
the last value). -/
def dictGet {α : Type} (d : List (String × α)) (k : String) : Option α :=
  d.foldl (fun acc p => if p.1 = k then some p.2 else acc) none

/-- The Python exceptions that can cross function boundaries in myapi.py. -/
inductive PyErr where
  | valueError : String → PyErr
  | httpStatusError : Nat → PyErr
  | keyError : String → PyErr
deriving DecidableEq

/-- A single-quote character, used in the genre-not-found message. -/
def apos : String := String.mk [Char.ofNat 39]

/-- The f-string of `myapi.py` line 57, with `genre` already lowercased at
line 54 before the message is built. -/
def genreNotFoundMsg (g : String) : String :=
  "Genre " ++ apos ++ g ++ apos ++ " not found."

/-- Python `str.lower()`, character by character (the service's genre names
are ASCII, on which this agrees with Python's Unicode lowercasing). -/
def pyLower (s : String) : String :=
  String.mk (s.data.map Char.toLower)

/-- Python `movie[k]` subscripting: `KeyError` when the field is absent. -/
def getItem (o : JObj) (k : String) : Except PyErr Val :=
  match dictGet o k with
  | some v => Except.ok v
  | none => Except.error (PyErr.keyError k)

/-- The dict comprehension of line 34:
`{genre['name'].lower(): genre['id'] for genre in genres}`. -/
def buildGenreTable (genres : List (String × Int)) : GenreTable :=
  genres.map (fun g => (pyLower g.1, g.2))

/-- The upstream TMDB provider, as observed by the service: the outcome of
the genre-list call, and the outcome of a discover call as a function of the
query parameters the service sends. -/
structure Upstream where
  genreList : Except Nat (Option (List (String × Int)))
  discover : List (String × Val) → Except Nat (Option (List JObj))

/-- `get_genre_id_mapping` (lines 26-34): fetch the genre list, raise on a
non-2xx status, read `data.get('genres', [])`, build the lowercased table. -/
def get_genre_id_mapping (up : Upstream) : Except PyErr GenreTable :=
  match up.genreList with
  | Except.error st => Except.error (PyErr.httpStatusError st)
  | Except.ok payload => Except.ok (buildGenreTable (payload.getD []))

/-- Lines 41-43: `if GENRE_ID_CACHE is None: GENRE_ID_CACHE = await
get_genre_id_mapping()`.  Returns the new cache state together with the
table in use (or the escaping exception, on which the cache slot keeps its
prior value `None`). -/
def populateCache (up : Upstream) (cache : Option GenreTable) :
    Option GenreTable × Except PyErr GenreTable :=
  match cache with
  | some t => (some t, Except.ok t)
  | none =>
    match get_genre_id_mapping up with
    | Except.error e => (none, Except.error e)
    | Except.ok t => (some t, Except.ok t)

/-- `TMDB_API_KEY = os.getenv('TMDB_API_KEY')` may be `None`. -/
def optStrVal : Option String → Val
  | none => Val.vNone
  | some s => Val.vStr s

/-- The `query_params` dict literal of lines 45-52, in insertion order. -/
def baseParams (apiKey : Option String) : List (String × Val) :=
  [("api_key", optStrVal apiKey),
   ("language", Val.vStr "en-US"),
   ("sort_by", Val.vStr "popularity.desc"),
   ("include_adult", Val.vStr "false"),
   ("include_video", Val.vStr "false"),
   ("page", Val.vInt 1)]

/-- Lines 53-58: `if genre:` (falsy for `None` and `""`), lowercase it, look
it up, and `if not genre_id:` (triggered both by a missing key and by a
falsy ID, i.e. `0`) raise `ValueError`; otherwise add `with_genres`. -/
def addGenreParam (tbl : GenreTable) (params : List (String × Val))
    (genre : Option String) : Except PyErr (List (String × Val)) :=
  match genre with
  | none => Except.ok params
  | some g =>
    if g = "" then Except.ok params
    else
      match dictGet tbl (pyLower g) with
      | none => Except.error (PyErr.valueError (genreNotFoundMsg (pyLower g)))
      | some gid =>
        if gid = 0 then
          Except.error (PyErr.valueError (genreNotFoundMsg (pyLower g)))
        else Except.ok (params ++ [("with_genres", Val.vInt gid)])

/-- Lines 59-60: `if year:` (falsy for `None` and `0`) add `year` verbatim. -/
def addYearParam (params : List (String × Val)) (year : Option Int) :
    List (String × Val) :=
  match year with
  | none => params
  | some y => if y = 0 then params else params ++ [("year", Val.vInt y)]

/-- The full query assembly of lines 45-60. -/
def buildParams (tbl : GenreTable) (apiKey : Option String)
    (genre : Option String) (year : Option Int) :
    Except PyErr (List (String × Val)) :=
  match addGenreParam tbl (baseParams apiKey) genre with
  | Except.error e => Except.error e
  | Except.ok ps => Except.ok (addYearParam ps year)

/-- The dict literal of lines 72-78: subscript the four fields (in source
evaluation order, so the first missing one raises `KeyError`) and build the
four-field summary record. -/
def projectMovie (movie : JObj) : Except PyErr JObj :=
  match getItem movie "title" with
  | Except.error e => Except.error e
  | Except.ok t =>
    match getItem movie "release_date" with
    | Except.error e => Except.error e
    | Except.ok rd =>
      match getItem movie "vote_average" with
      | Except.error e => Except.error e
      | Except.ok va =>
        match getItem movie "overview" with
        | Except.error e => Except.error e
        | Except.ok ov =>
          Except.ok [("title", t), ("release_date", rd),
                     ("vote_average", va), ("overview", ov)]

/-- The loop of lines 70-79: project each retained movie in order; the first
missing field aborts the whole loop with its exception (no partial result
escapes). -/
def projectAll : List JObj → Except PyErr (List JObj)
  | [] => Except.ok []
  | m :: ms =>
    match projectMovie m with
    | Except.error e => Except.error e
    | Except.ok fm =>
      match projectAll ms with
      | Except.error e => Except.error e
      | Except.ok rest => Except.ok (fm :: rest)

/-- Lines 63-81: issue the discover call with the assembled query, raise on
non-2xx, read `data.get('results', [])[:5]` and project. -/
def runDiscover (up : Upstream) (qp : List (String × Val)) :
    Except PyErr (List JObj) :=
  match up.discover qp with
  | Except.error st => Except.error (PyErr.httpStatusError st)
  | Except.ok payload => projectAll ((payload.getD []).take 5)

/-- `fetch_movies_from_tmdb` (lines 40-81), with the global `GENRE_ID_CACHE`
threaded explicitly: returns the cache slot's new value and the function's
result (value or escaping exception). -/
def fetch_movies_from_tmdb (up : Upstream) (apiKey : Option String)
    (cache : Option GenreTable) (genre : Option String) (year : Option Int) :
    Option GenreTable × Except PyErr (List JObj) :=
  match populateCache up cache with
  | (c, Except.error e) => (c, Except.error e)
  | (c, Except.ok tbl) =>
    (c,
      match buildParams tbl apiKey genre year with
      | Except.error e => Except.error e
      | Except.ok qp => runDiscover up qp)

/-- Outcome of the `/movies/` GET route as seen by the client. -/
inductive ApiResult where
  | ok : List JObj → ApiResult
  | httpError : Nat → String → ApiResult
  | unhandled : PyErr → ApiResult
deriving DecidableEq

/-- `str(e)` for an `httpx.HTTPStatusError`: an opaque rendering that
mentions the status; its exact text is httpx's and is not specified. -/
def httpStatusErrorStr (st : Nat) : String :=
  "HTTPStatusError with status code " ++ toString st

/-- `read_movies` (lines 84-94): call the fetch helper; translate
`httpx.HTTPStatusError` into an `HTTPException` with the upstream status and
`ValueError` into a 404 with the message as detail; any other exception
(notably `KeyError`) escapes unhandled. -/
def read_movies (up : Upstream) (apiKey : Option String)
    (cache : Option GenreTable) (genre : Option String) (year : Option Int) :
    Option GenreTable × ApiResult :=
  match fetch_movies_from_tmdb up apiKey cache genre year with
  | (c, Except.ok movies) => (c, ApiResult.ok movies)
  | (c, Except.error (PyErr.httpStatusError st)) =>
    (c, ApiResult.httpError st (httpStatusErrorStr st))
  | (c, Except.error (PyErr.valueError msg)) =>
    (c, ApiResult.httpError 404 msg)
  | (c, Except.error (PyErr.keyError k)) =>
    (c, ApiResult.unhandled (PyErr.keyError k))

/-- A sequence of `/movies/` requests served by one process: the cache slot
persists across requests. -/
def runRequests (up : Upstream) (apiKey : Option String) :
    Option GenreTable → List (Option String × Option Int) →
    Option GenreTable × List ApiResult
  | cache, [] => (cache, [])
  | cache, r :: rs =>
    match read_movies up apiKey cache r.1 r.2 with
    | (c, res) =>
      match runRequests up apiKey c rs with
      | (c2, ress) => (c2, res :: ress)

/-- The `Movie` pydantic model (lines 12-17) of the echo endpoint; the float
field is a rational, as the endpoint only passes it through. -/
structure Movie where
  title : String
  year : Int
  genre : String
  overview : String
  vote_average : Rat
deriving DecidableEq

/-- `create_movie` (lines 97-99): the POST `/movies/` echo endpoint. -/
def create_movie (movie : Movie) : Movie :=
  movie

/-! Concrete upstream behaviours and payloads used to exercise the theorems
on closed inputs. -/

/-- An upstream whose genre-list response is a 2xx JSON object with no
`genres` key, and whose discover response has no `results` key. -/
def upNone : Upstream :=
  ⟨Except.ok none, fun _ => Except.ok none⟩

/-- An upstream movie record carrying all four projected fields plus an
extra one (`popularity`) that the projection must drop. -/
def mvFull : JObj :=
  [("title", Val.vStr "Inception"),
   ("release_date", Val.vStr "2010-07-16"),
   ("vote_average", Val.vFloat (83/10)),
   ("overview", Val.vStr "Dream heist."),
   ("popularity", Val.vFloat 100)]

/-- The four-field summary the service derives from `mvFull`. -/
def mvProj : JObj :=
  [("title", Val.vStr "Inception"),
   ("release_date", Val.vStr "2010-07-16"),
   ("vote_average", Val.vFloat (83/10)),
   ("overview", Val.vStr "Dream heist.")]

/-- A healthy upstream: one genre, one full movie record. -/
def upDemo : Upstream :=
  ⟨Except.ok (some [("comedy", 35)]), fun _ => Except.ok (some [mvFull])⟩

/-- An upstream whose discover response contains a record with none of the
projected fields. -/
def upMissingField : Upstream :=
  ⟨Except.ok (some []), fun _ => Except.ok (some [([] : JObj)])⟩

/-- An upstream failing both endpoints with HTTP status 503. -/
def upFail : Upstream :=
  ⟨Except.error 503, fun _ => Except.error 503⟩

/-- Same discover behaviour as `upDemo`, different genre-list endpoint (it
fails with a 500): distinguishes "table reused" from "table re-fetched". -/
def upDemo2 : Upstream :=
  ⟨Except.error 500, upDemo.discover⟩

/-- Same discover behaviour as `upNone`, different genre-list endpoint. -/
def upNone2 : Upstream :=
  ⟨Except.ok (some [("comedy", 35)]), upNone.discover⟩

/-! Helper lemmas. -/

theorem projectAll_length (l : List JObj) (r : List JObj)
    (h : projectAll l = Except.ok r) : r.length = l.length := by
  induction l generalizing r with
  | nil =>
    simp only [projectAll, Except.ok.injEq] at h
    subst h
    rfl
  | cons m ms ih =>
    simp only [projectAll] at h
    cases hm : projectMovie m with
    | error e => rw [hm] at h; cases h
    | ok fm =>
      rw [hm] at h
      cases hrest : projectAll ms with
      | error e => rw [hrest] at h; cases h
      | ok rest =>
        rw [hrest] at h
        simp only [Except.ok.injEq] at h
        subst h
        simp [ih rest hrest]

theorem projectMovie_ok_fields (m fm : JObj) (h : projectMovie m = Except.ok fm) :
    ∃ t rd va ov,
      dictGet m "title" = some t ∧ dictGet m "release_date" = some rd ∧
      dictGet m "vote_average" = some va ∧ dictGet m "overview" = some ov ∧
      fm = [("title", t), ("release_date", rd),
            ("vote_average", va), ("overview", ov)] := by
  cases ht : dictGet m "title" with
  | none => simp [projectMovie, getItem, ht] at h
  | some t =>
    cases hrd : dictGet m "release_date" with
    | none => simp [projectMovie, getItem, ht, hrd] at h
    | some rd =>
      cases hva : dictGet m "vote_average" with
      | none => simp [projectMovie, getItem, ht, hrd, hva] at h
      | some va =>
        cases hov : dictGet m "overview" with
        | none => simp [projectMovie, getItem, ht, hrd, hva, hov] at h
        | some ov =>
          refine ⟨t, rd, va, ov, rfl, rfl, rfl, rfl, ?_⟩
          simp [projectMovie, getItem, ht, hrd, hva, hov] at h
          exact h.symm

theorem mem_addYearParam (ps : List (String × Val)) (y : Option Int)
    (p : String × Val) (hp : p ∈ ps) : p ∈ addYearParam ps y := by
  cases y with
  | none => exact hp
  | some n =>
    by_cases hn : n = 0
    · simpa [addYearParam, hn] using hp
    · simp only [addYearParam, hn, if_false]
      exact List.mem_append_left _ hp

theorem addYearParam_append (ps : List (String × Val)) (y : Option Int) :
    ∃ rest, addYearParam ps y = ps ++ rest := by
  cases y with
  | none => exact ⟨[], by simp [addYearParam]⟩
  | some n =>
    by_cases hn : n = 0
    · exact ⟨[], by simp [addYearParam, hn]⟩
    · exact ⟨[("year", Val.vInt n)], by simp [addYearParam, hn]⟩

theorem addGenreParam_ok_append (tbl : GenreTable) (ps0 ps : List (String × Val))
    (g : Option String) (h : addGenreParam tbl ps0 g = Except.ok ps) :
    ∃ rest, ps = ps0 ++ rest := by
  cases g with
  | none =>
    simp only [addGenreParam, Except.ok.injEq] at h
    exact ⟨[], by simp [← h]⟩
  | some s =>
    by_cases hs : s = ""
    · simp only [addGenreParam, hs, if_true, Except.ok.injEq] at h
      exact ⟨[], by simp [← h]⟩
    · simp only [addGenreParam, hs, if_false] at h
      cases hg : dictGet tbl (pyLower s) with
      | none => rw [hg] at h; simp at h
      | some gid =>
        rw [hg] at h
        by_cases h0 : gid = 0
        · simp [h0] at h
        · simp only [h0, if_false, Except.ok.injEq] at h
          exact ⟨[("with_genres", Val.vInt gid)], h.symm⟩

theorem fetch_cache_some (up : Upstream) (ak : Option String) (tbl : GenreTable)
    (g : Option String) (y : Option Int) :
    (fetch_movies_from_tmdb up ak (some tbl) g y).1 = some tbl := rfl

theorem fetch_congr_discover (up up2 : Upstream) (ak : Option String)
    (tbl : GenreTable) (g : Option String) (y : Option Int)
    (h : up.discover = up2.discover) :
    fetch_movies_from_tmdb up ak (some tbl) g y =
      fetch_movies_from_tmdb up2 ak (some tbl) g y := by
  simp only [fetch_movies_from_tmdb, populateCache, runDiscover, h]

theorem read_cache_some (up : Upstream) (ak : Option String) (tbl : GenreTable)
    (g : Option String) (y : Option Int) :
    (read_movies up ak (some tbl) g y).1 = some tbl := by
  have h1 := fetch_cache_some up ak tbl g y
  cases hf : fetch_movies_from_tmdb up ak (some tbl) g y with
  | mk c r =>
    rw [hf] at h1
    cases r with
    | ok ms => simp [read_movies, hf, h1]
    | error e => cases e <;> simp [read_movies, hf, h1]

theorem runRequests_cache_some (up : Upstream) (ak : Option String)
    (tbl : GenreTable) (reqs : List (Option String × Option Int)) :
    (runRequests up ak (some tbl) reqs).1 = some tbl := by
  induction reqs with
  | nil => rfl
  | cons r rs ih =>
    have h1 := read_cache_some up ak tbl r.1 r.2
    cases hr : read_movies up ak (some tbl) r.1 r.2 with
    | mk c res =>
      rw [hr] at h1
      subst h1
      simp only [runRequests, hr]
      cases h2 : runRequests up ak (some tbl) rs with
      | mk c2 ress =>
        rw [h2] at ih
        simpa using ih

theorem read_movies_absent_genre (up : Upstream) (ak : Option String)
    (tbl : GenreTable) (g : String) (y : Option Int)
    (hg : g ≠ "") (habs : dictGet tbl (pyLower g) = none) :
    (read_movies up ak (some tbl) (some g) y).2 =
      ApiResult.httpError 404 (genreNotFoundMsg (pyLower g)) := by
  simp [read_movies, fetch_movies_from_tmdb, populateCache, buildParams,
    addGenreParam, hg, habs]

theorem dictGet_append_single {α : Type} (l : List (String × α)) (k : String)
    (v : α) : dictGet (l ++ [(k, v)]) k = some v := by
  simp [dictGet, List.foldl_append]

/-! The claims. -/

/-- Claim C1: for every successful read-filter call, the returned sequence
of MovieSummary records has length at most 5 and is the in-order projection
of a prefix of the upstream result list (no re-sorting). -/
theorem claim_C1 (up : Upstream) (ak : Option String) (cache : Option GenreTable)
    (g : Option String) (y : Option Int) (ms : List JObj)
    (h : (fetch_movies_from_tmdb up ak cache g y).2 = Except.ok ms) :
    ms.length ≤ 5 ∧
    ∃ qp payload, up.discover qp = Except.ok payload ∧
      projectAll ((payload.getD []).take 5) = Except.ok ms ∧
      ∃ rest, (payload.getD []).take 5 ++ rest = payload.getD [] := by
  cases hpc : populateCache up cache with
  | mk c r =>
    cases r with
    | error e => simp [fetch_movies_from_tmdb, hpc] at h
    | ok tbl =>
      simp only [fetch_movies_from_tmdb, hpc] at h
      cases hbp : buildParams tbl ak g y with
      | error e => rw [hbp] at h; cases h
      | ok qp =>
        rw [hbp] at h
        simp only [runDiscover] at h
        cases hd : up.discover qp with
        | error st => rw [hd] at h; cases h
        | ok payload =>
          rw [hd] at h
          constructor
          · rw [projectAll_length _ _ h, List.length_take]
            exact min_le_left _ _
          · exact ⟨qp, payload, hd, h,
              (payload.getD []).drop 5, List.take_append_drop 5 _⟩

/-- Claim C1 witness: the healthy demo upstream yields the projected record,
within the length bound. -/
theorem claim_C1_witness :
    ([mvProj] : List JObj).length ≤ 5 ∧
    ∃ qp payload, upDemo.discover qp = Except.ok payload ∧
      projectAll ((payload.getD []).take 5) = Except.ok [mvProj] ∧
      ∃ rest, (payload.getD []).take 5 ++ rest = payload.getD [] :=
  claim_C1 upDemo none none none none [mvProj] rfl

/-- Claim C2 counterexample: for the absent requested name "ABC" the detail
echoes the lowercased "abc", not the requested name — the claim's "requested
name echoed" fails for any non-lowercase request. -/
theorem claim_C2_counterexample :
    (read_movies upNone none (some []) (some "ABC") none).2 =
      ApiResult.httpError 404 (genreNotFoundMsg "abc") ∧
    genreNotFoundMsg "abc" ≠ genreNotFoundMsg "ABC" :=
  ⟨rfl, by decide⟩

/-- Claim C2 (amended): for every nonempty genre name whose lowercased form
is absent from the populated genre table, the read-filter operation returns
a 404 whose detail is exactly "Genre '<lowercased name>' not found.". -/
theorem claim_C2_amended (up : Upstream) (ak : Option String) (tbl : GenreTable)
    (g : String) (y : Option Int) (hg : g ≠ "")
    (habs : dictGet tbl (pyLower g) = none) :
    (read_movies up ak (some tbl) (some g) y).2 =
      ApiResult.httpError 404 (genreNotFoundMsg (pyLower g)) :=
  read_movies_absent_genre up ak tbl g y hg habs

/-- Claim C2 witness: requesting "SciFi" against an empty populated table
yields the 404 with the lowercased name in the detail. -/
theorem claim_C2_witness :
    (read_movies upNone none (some []) (some "SciFi") none).2 =
      ApiResult.httpError 404 (genreNotFoundMsg (pyLower "SciFi")) :=
  claim_C2_amended upNone none [] "SciFi" none (by decide) rfl

/-- Claim C3: a successful projection yields exactly the four fields title,
release_date, vote_average, overview, each equal to the matching upstream
field; a record missing any of the four makes the projection raise
`KeyError`; and a `KeyError` escaping the fetch helper is not handled by the
route (no partial results). -/
theorem claim_C3 :
    (∀ m fm, projectMovie m = Except.ok fm →
      ∃ t rd va ov,
        dictGet m "title" = some t ∧ dictGet m "release_date" = some rd ∧
        dictGet m "vote_average" = some va ∧ dictGet m "overview" = some ov ∧
        fm = [("title", t), ("release_date", rd),
              ("vote_average", va), ("overview", ov)]) ∧
    (∀ m : JObj, (dictGet m "title" = none ∨ dictGet m "release_date" = none ∨
        dictGet m "vote_average" = none ∨ dictGet m "overview" = none) →
      ∃ k, projectMovie m = Except.error (PyErr.keyError k)) ∧
    (∀ up ak cache g y k,
      (fetch_movies_from_tmdb up ak cache g y).2 =
          Except.error (PyErr.keyError k) →
      (read_movies up ak cache g y).2 =
        ApiResult.unhandled (PyErr.keyError k)) := by
  refine ⟨projectMovie_ok_fields, ?_, ?_⟩
  · intro m hm
    cases ht : dictGet m "title" with
    | none => exact ⟨"title", by simp [projectMovie, getItem, ht]⟩
    | some t =>
      cases hrd : dictGet m "release_date" with
      | none => exact ⟨"release_date", by simp [projectMovie, getItem, ht, hrd]⟩
      | some rd =>
        cases hva : dictGet m "vote_average" with
        | none =>
          exact ⟨"vote_average", by simp [projectMovie, getItem, ht, hrd, hva]⟩
        | some va =>
          cases hov : dictGet m "overview" with
          | none =>
            exact ⟨"overview",
              by simp [projectMovie, getItem, ht, hrd, hva, hov]⟩
          | some ov => rcases hm with h | h | h | h <;> simp_all
  · intro up ak cache g y k h
    cases hf : fetch_movies_from_tmdb up ak cache g y with
    | mk c r =>
      rw [hf] at h
      simp only at h
      subst h
      simp [read_movies, hf]

/-- Claim C3 witness: the full record projects to exactly its four summary
fields (dropping the extra `popularity`); the empty record raises a
`KeyError`; and a fetch aborted by a missing title surfaces unhandled. -/
theorem claim_C3_witness :
    (∃ t rd va ov,
      dictGet mvFull "title" = some t ∧ dictGet mvFull "release_date" = some rd ∧
      dictGet mvFull "vote_average" = some va ∧
      dictGet mvFull "overview" = some ov ∧
      mvProj = [("title", t), ("release_date", rd),
                ("vote_average", va), ("overview", ov)]) ∧
    (∃ k, projectMovie ([] : JObj) = Except.error (PyErr.keyError k)) ∧
    (read_movies upMissingField none none none none).2 =
      ApiResult.unhandled (PyErr.keyError "title") :=
  ⟨claim_C3.1 mvFull mvProj rfl,
   claim_C3.2.1 [] (Or.inl rfl),
   claim_C3.2.2 upMissingField none none none none "title" rfl⟩

/-- Claim C4 counterexample: the name "weird" IS present in the populated
table (mapped to the numeric ID 0), yet resolution fails with a 404 — the
code's falsy-ID test `if not genre_id:` conflates ID 0 with absence, so the
claim's "every present name resolves to its ID" is false. -/
theorem claim_C4_counterexample :
    dictGet ([("weird", (0 : Int))] : GenreTable) "weird" = some 0 ∧
    (read_movies upNone none (some [("weird", 0)]) (some "weird") none).2 =
      ApiResult.httpError 404 (genreNotFoundMsg "weird") :=
  ⟨rfl, rfl⟩

/-- Claim C4 (amended): for every nonempty genre name whose lowercased form
the populated table maps to a NONZERO ID, resolution puts exactly that ID
into the discovery query; lookup is case-insensitive exact match (any two
names with the same lowercasing build the same query), and the table is
built with the provider-supplied names lowercased as keys. -/
theorem claim_C4_amended :
    (∀ tbl ak g y gid, g ≠ "" → dictGet tbl (pyLower g) = some gid → gid ≠ 0 →
      ∃ qp, buildParams tbl ak (some g) y = Except.ok qp ∧
        ("with_genres", Val.vInt gid) ∈ qp) ∧
    (∀ tbl ak g g2 y, g ≠ "" → g2 ≠ "" → pyLower g = pyLower g2 →
      buildParams tbl ak (some g) y = buildParams tbl ak (some g2) y) ∧
    (∀ gs, (buildGenreTable gs).map Prod.fst = gs.map (fun q => pyLower q.1)) := by
  refine ⟨?_, ?_, ?_⟩
  · intro tbl ak g y gid hg hfound h0
    refine ⟨addYearParam (baseParams ak ++ [("with_genres", Val.vInt gid)]) y,
      ?_, ?_⟩
    · simp [buildParams, addGenreParam, hg, hfound, h0]
    · exact mem_addYearParam _ _ _ (List.mem_append_right _ (by simp))
  · intro tbl ak g g2 y hg hg2 hl
    simp [buildParams, addGenreParam, hg, hg2, hl]
  · intro gs
    simp [buildGenreTable, List.map_map, Function.comp]

/-- Claim C4 witness: "Comedy" and "COMEDY" both resolve against the table
entry "comedy" → 35, and the table builder lowercases names. -/
theorem claim_C4_witness :
    (∃ qp, buildParams [("comedy", (35 : Int))] none (some "Comedy") none =
        Except.ok qp ∧ ("with_genres", Val.vInt 35) ∈ qp) ∧
    buildParams [("comedy", (35 : Int))] none (some "Comedy") none =
      buildParams [("comedy", (35 : Int))] none (some "COMEDY") none ∧
    (buildGenreTable [("Comedy", (35 : Int))]).map Prod.fst =
      [("Comedy", (35 : Int))].map (fun q => pyLower q.1) :=
  ⟨claim_C4_amended.1 [("comedy", 35)] none "Comedy" none 35 (by decide) rfl
      (by decide),
   claim_C4_amended.2.1 [("comedy", 35)] none "Comedy" "COMEDY" none
      (by decide) (by decide) rfl,
   claim_C4_amended.2.2 [("Comedy", 35)]⟩

/-- Claim C5 counterexample: the year 0 is present in the request, yet the
built query carries no `year` key — `if year:` treats the int 0 as falsy, so
"every present year is added verbatim" is false at 0. -/
theorem claim_C5_counterexample :
    buildParams [] none none (some 0) = Except.ok (baseParams none) ∧
    dictGet (baseParams none) "year" = none :=
  ⟨rfl, rfl⟩

/-- Claim C5 (amended): for every request whose present year is NONZERO, the
year is added verbatim to the discovery query as the year-equality filter,
with no sanity validation (negative and future years included). -/
theorem claim_C5_amended (tbl : GenreTable) (ak : Option String)
    (g : Option String) (y : Int) (qp : List (String × Val)) (hy : y ≠ 0)
    (h : buildParams tbl ak g (some y) = Except.ok qp) :
    ("year", Val.vInt y) ∈ qp ∧ dictGet qp "year" = some (Val.vInt y) := by
  simp only [buildParams] at h
  cases hag : addGenreParam tbl (baseParams ak) g with
  | error e => rw [hag] at h; cases h
  | ok ps =>
    rw [hag] at h
    simp only [Except.ok.injEq] at h
    subst h
    simp only [addYearParam, hy, if_false]
    exact ⟨List.mem_append_right _ (by simp), dictGet_append_single _ _ _⟩

/-- Claim C5 witness: the negative year -1 passes through unchecked into the
query. -/
theorem claim_C5_witness :
    ("year", Val.vInt (-1)) ∈ baseParams none ++ [("year", Val.vInt (-1))] ∧
    dictGet (baseParams none ++ [("year", Val.vInt (-1))]) "year" =
      some (Val.vInt (-1)) :=
  claim_C5_amended [] none none (-1)
    (baseParams none ++ [("year", Val.vInt (-1))]) (by decide) rfl

/-- Claim C6: a non-2xx upstream response raises `HTTPStatusError` carrying
the upstream status (at either upstream call), and the route surfaces such
an error as an HTTP error with exactly that status code. -/
theorem claim_C6 :
    (∀ up ak cache g y st,
      (fetch_movies_from_tmdb up ak cache g y).2 =
          Except.error (PyErr.httpStatusError st) →
      (read_movies up ak cache g y).2 =
        ApiResult.httpError st (httpStatusErrorStr st)) ∧
    (∀ up qp st, up.discover qp = Except.error st →
      runDiscover up qp = Except.error (PyErr.httpStatusError st)) ∧
    (∀ up st, up.genreList = Except.error st →
      populateCache up none = (none, Except.error (PyErr.httpStatusError st))) := by
  refine ⟨?_, ?_, ?_⟩
  · intro up ak cache g y st h
    cases hf : fetch_movies_from_tmdb up ak cache g y with
    | mk c r =>
      rw [hf] at h
      simp only at h
      subst h
      simp [read_movies, hf]
  · intro up qp st h
    simp [runDiscover, h]
  · intro up st h
    simp [populateCache, get_genre_id_mapping, h]

/-- Claim C6 witness: a 503 from the upstream surfaces as a 503 at the
boundary, from either endpoint. -/
theorem claim_C6_witness :
    (read_movies upFail none none none none).2 =
      ApiResult.httpError 503 (httpStatusErrorStr 503) ∧
    runDiscover upFail [] = Except.error (PyErr.httpStatusError 503) ∧
    populateCache upFail none =
      (none, Except.error (PyErr.httpStatusError 503)) :=
  ⟨claim_C6.1 upFail none none none none 503 rfl,
   claim_C6.2.1 upFail [] 503 rfl,
   claim_C6.2.2 upFail 503 rfl⟩

/-- Claim C7: once the cache slot holds a table, an invocation leaves the
slot unchanged, its behaviour does not depend on the genre-list endpoint at
all (no re-fetch), and any sequence of subsequent requests still leaves the
slot holding the same table. -/
theorem claim_C7 :
    (∀ up ak tbl g y,
      (fetch_movies_from_tmdb up ak (some tbl) g y).1 = some tbl) ∧
    (∀ up up2 ak tbl g y, up.discover = up2.discover →
      fetch_movies_from_tmdb up ak (some tbl) g y =
        fetch_movies_from_tmdb up2 ak (some tbl) g y) ∧
    (∀ up ak tbl reqs, (runRequests up ak (some tbl) reqs).1 = some tbl) :=
  ⟨fetch_cache_some, fetch_congr_discover, runRequests_cache_some⟩

/-- Claim C7 witness: with a populated table, `upDemo` and `upDemo2` (whose
genre-list endpoint fails) behave identically, and the slot survives a
two-request sequence unchanged. -/
theorem claim_C7_witness :
    (fetch_movies_from_tmdb upDemo none (some [("comedy", 35)]) (some "comedy")
        (some 2020)).1 = some [("comedy", 35)] ∧
    fetch_movies_from_tmdb upDemo none (some [("comedy", 35)]) (some "comedy")
        none =
      fetch_movies_from_tmdb upDemo2 none (some [("comedy", 35)])
        (some "comedy") none ∧
    (runRequests upDemo none (some [("comedy", 35)])
        [(some "comedy", some 2020), (none, none)]).1 = some [("comedy", 35)] :=
  ⟨claim_C7.1 upDemo none [("comedy", 35)] (some "comedy") (some 2020),
   claim_C7.2.1 upDemo upDemo2 none [("comedy", 35)] (some "comedy") none rfl,
   claim_C7.2.2 upDemo none [("comedy", 35)]
     [(some "comedy", some 2020), (none, none)]⟩

/-- Claim C8 counterexample: the base query does not contain exactly the
four claimed settings — it also carries a fixed `language` setting (and the
API key), so its key set is six keys, not four. -/
theorem claim_C8_counterexample :
    (baseParams none).map Prod.fst =
      ["api_key", "language", "sort_by", "include_adult", "include_video",
       "page"] ∧
    ("language", Val.vStr "en-US") ∈ baseParams none ∧
    "language" ∉
      (["sort_by", "include_adult", "include_video", "page"] : List String) :=
  ⟨rfl, by decide, by decide⟩

/-- Claim C8 (amended): every discovery query is built from the base query —
the API key, a fixed language setting, and the four fixed settings
popularity-descending sort, adult excluded, video excluded, first page —
and those settings appear in the sent query regardless of caller input. -/
theorem claim_C8_amended (tbl : GenreTable) (ak : Option String)
    (g : Option String) (y : Option Int) (qp : List (String × Val))
    (h : buildParams tbl ak g y = Except.ok qp) :
    (∃ rest, qp = baseParams ak ++ rest) ∧
    ("sort_by", Val.vStr "popularity.desc") ∈ qp ∧
    ("include_adult", Val.vStr "false") ∈ qp ∧
    ("include_video", Val.vStr "false") ∈ qp ∧
    ("page", Val.vInt 1) ∈ qp ∧
    ("language", Val.vStr "en-US") ∈ qp ∧
    ("api_key", optStrVal ak) ∈ qp := by
  have hqp : ∃ rest, qp = baseParams ak ++ rest := by
    simp only [buildParams] at h
    cases hag : addGenreParam tbl (baseParams ak) g with
    | error e => rw [hag] at h; cases h
    | ok ps =>
      rw [hag] at h
      simp only [Except.ok.injEq] at h
      obtain ⟨r1, hr1⟩ := addGenreParam_ok_append tbl (baseParams ak) ps g hag
      obtain ⟨r2, hr2⟩ := addYearParam_append ps y
      exact ⟨r1 ++ r2, by rw [← h, hr2, hr1, List.append_assoc]⟩
  obtain ⟨rest, hrest⟩ := hqp
  subst hrest
  refine ⟨⟨rest, rfl⟩, ?_, ?_, ?_, ?_, ?_, ?_⟩ <;>
    exact List.mem_append_left _ (by simp [baseParams])

/-- Claim C8 witness: the query built for genre "Comedy" and year 2020 is
the base query extended with the two filters, with all six base settings in
place. -/
theorem claim_C8_witness :
    (∃ rest, baseParams (some "k") ++
        [("with_genres", Val.vInt 35), ("year", Val.vInt 2020)] =
        baseParams (some "k") ++ rest) ∧
    ("sort_by", Val.vStr "popularity.desc") ∈ baseParams (some "k") ++
        [("with_genres", Val.vInt 35), ("year", Val.vInt 2020)] ∧
    ("include_adult", Val.vStr "false") ∈ baseParams (some "k") ++
        [("with_genres", Val.vInt 35), ("year", Val.vInt 2020)] ∧
    ("include_video", Val.vStr "false") ∈ baseParams (some "k") ++
        [("with_genres", Val.vInt 35), ("year", Val.vInt 2020)] ∧
    ("page", Val.vInt 1) ∈ baseParams (some "k") ++
        [("with_genres", Val.vInt 35), ("year", Val.vInt 2020)] ∧
    ("language", Val.vStr "en-US") ∈ baseParams (some "k") ++
        [("with_genres", Val.vInt 35), ("year", Val.vInt 2020)] ∧
    ("api_key", optStrVal (some "k")) ∈ baseParams (some "k") ++
        [("with_genres", Val.vInt 35), ("year", Val.vInt 2020)] :=
  claim_C8_amended [("comedy", 35)] (some "k") (some "Comedy") (some 2020)
    (baseParams (some "k") ++
      [("with_genres", Val.vInt 35), ("year", Val.vInt 2020)]) rfl

/-- Claim C9: the echo endpoint returns its input unchanged, field for
field. -/
theorem claim_C9 (m : Movie) :
    create_movie m = m ∧
    (create_movie m).title = m.title ∧ (create_movie m).year = m.year ∧
    (create_movie m).genre = m.genre ∧
    (create_movie m).overview = m.overview ∧
    (create_movie m).vote_average = m.vote_average :=
  ⟨rfl, rfl, rfl, rfl, rfl, rfl⟩

/-- Claim C10: the cache slot counts as populated when non-`None`, not when
non-empty — a first genre-list fetch whose 2xx payload lacks the `genres`
key caches the empty table; later calls reuse the slot without re-fetching,
and every subsequent genre-filtered request then gets a 404. -/
theorem claim_C10 :
    (∀ up ak g y, up.genreList = Except.ok none →
      (fetch_movies_from_tmdb up ak none g y).1 = some []) ∧
    (∀ up ak g y, (fetch_movies_from_tmdb up ak (some []) g y).1 = some []) ∧
    (∀ up up2 ak g y, up.discover = up2.discover →
      fetch_movies_from_tmdb up ak (some []) g y =
        fetch_movies_from_tmdb up2 ak (some []) g y) ∧
    (∀ up ak g y, g ≠ "" →
      (read_movies up ak (some []) (some g) y).2 =
        ApiResult.httpError 404 (genreNotFoundMsg (pyLower g))) := by
  refine ⟨?_, ?_, ?_, ?_⟩
  · intro up ak g y h
    simp [fetch_movies_from_tmdb, populateCache, get_genre_id_mapping, h,
      buildGenreTable]
  · intro up ak g y
    exact fetch_cache_some up ak [] g y
  · intro up up2 ak g y h
    exact fetch_congr_discover up up2 ak [] g y h
  · intro up ak g y hg
    exact read_movies_absent_genre up ak [] g y hg rfl

/-- Claim C10 witness: `upNone`'s genre-list payload has no `genres` key;
the first call caches the empty table, the slot then never changes, and a
genre-filtered request against it 404s. -/
theorem claim_C10_witness :
    (fetch_movies_from_tmdb upNone none none none none).1 = some [] ∧
    (fetch_movies_from_tmdb upNone none (some []) (some "drama") none).1 =
      some [] ∧
    fetch_movies_from_tmdb upNone none (some []) none none =
      fetch_movies_from_tmdb upNone2 none (some []) none none ∧
    (read_movies upNone none (some []) (some "drama") none).2 =
      ApiResult.httpError 404 (genreNotFoundMsg (pyLower "drama")) :=
  ⟨claim_C10.1 upNone none none none rfl,
   claim_C10.2.1 upNone none (some "drama") none,
   claim_C10.2.2.1 upNone upNone2 none none none rfl,
   claim_C10.2.2.2 upNone none "drama" none (by decide)⟩
